import Mathlib

/-!
Verification of the ticket-based lock manager of `rasa/core/lock_store.py`
(with `rasa/core/constants.py`).

The `TicketLock` class lives in `rasa/core/lock.py`, which is not part of the
sources; its operations are modelled from the specification (§3, §4.1).
Everything in the `LockStore` hierarchy is translated from
`rasa/core/lock_store.py` directly.

Time is modelled as exact integer ticks: the algorithm only ever adds a
duration to a timestamp and compares timestamps, so the choice of time scale
is immaterial, and exact integers stand in for Python wall-clock floats.
Ticket numbers are naturals.  Store state for the in-memory backend is a map
from conversation id to an optional `TicketLock`; the Redis backend adds a
reachability flag, and its fetch/persist/delete operations fail with a
connection error when the backend is unreachable.
-/

/-- Modelled from the spec: a `Ticket` pairs a monotonically increasing number
with an absolute expiry timestamp (`expiresAt = issueTime + lifetime`, §3). -/
structure Ticket where
  number : Nat
  expires_at : Int
deriving DecidableEq, Repr

/-- Modelled from the spec: the `TicketLock` of `rasa/core/lock.py` (absent
from the sources).  Per §3 it carries the conversation id, the ordered ticket
list, and a persisted strictly increasing counter for the next ticket
number. -/
structure TicketLock where
  conversation_id : String
  tickets : List Ticket
  next_ticket_number : Nat
deriving DecidableEq, Repr

/-- Modelled from the spec: `pruneExpired` removes every ticket whose
`expiresAt <= now` (§4.1); called `remove_expired_tickets` by
`lock_store.py`. -/
def TicketLock.remove_expired_tickets (lock : TicketLock) (now : Int) : TicketLock :=
  { lock with tickets := lock.tickets.filter (fun t => decide (now < t.expires_at)) }

/-- Modelled from the spec: `issue(lifetime)` appends
`Ticket (nextTicketNumber) (now + lifetime)`, increments the counter and
returns the new number (§4.1). -/
def TicketLock.issue_ticket (lock : TicketLock) (lifetime : Int) (now : Int) :
    Nat × TicketLock :=
  (lock.next_ticket_number,
   { lock with
       tickets := lock.tickets ++ [⟨lock.next_ticket_number, now + lifetime⟩],
       next_ticket_number := lock.next_ticket_number + 1 })

/-- Minimum ticket number of a ticket list, `none` when empty. -/
def minTicketNumber : List Ticket → Option Nat
  | [] => none
  | t :: ts =>
    match minTicketNumber ts with
    | none => some t.number
    | some m => some (min t.number m)

/-- Modelled from the spec: `isInTurn` prunes expired tickets, then holds iff
the ticket number equals the minimum remaining number, or the queue has no
tickets at all (§4.1). -/
def TicketLock.is_in_turn (lock : TicketLock) (ticket : Nat) (now : Int) : Bool :=
  match minTicketNumber (lock.remove_expired_tickets now).tickets with
  | none => true
  | some m => ticket == m

/-- Modelled from the spec: `is_locked ticket` (used by `_acquire_lock`) is the
negation of being in turn. -/
def TicketLock.is_locked (lock : TicketLock) (ticket : Nat) (now : Int) : Bool :=
  ! lock.is_in_turn ticket now

/-- Modelled from the spec: `hasWaiters` holds iff at least one ticket remains
after pruning (§4.1); called `is_someone_waiting` by `lock_store.py`. -/
def TicketLock.is_someone_waiting (lock : TicketLock) (now : Int) : Bool :=
  ! (lock.remove_expired_tickets now).tickets.isEmpty

/-- Modelled from the spec: `remove(ticketNumber)` deletes the ticket if
present, idempotently (§4.1); called `remove_ticket_for` by
`lock_store.py`. -/
def TicketLock.remove_ticket_for (lock : TicketLock) (ticket_number : Nat) : TicketLock :=
  { lock with tickets := lock.tickets.filter (fun t => ! (t.number == ticket_number)) }

/-- Python exception kinds raised by the lock-store module: `LockError`
(acquisition timeout, `lock_store.py` line 18), `ValueError` (invalid
configuration, `find_lock_store`), and the Redis client connection error. -/
inductive RasaError
  | lockError (conversation_id : String)
  | valueError (msg : String)
  | connectionError
deriving DecidableEq, Repr

/-! ### In-memory backend (`InMemoryLockStore`) -/

/-- State of `InMemoryLockStore.conversation_locks`: a map from conversation id
to the stored `TicketLock`. -/
def InMemoryState : Type := String → Option TicketLock

/-- Store state with no record at all. -/
def emptyState : InMemoryState := fun _ => none

/-- State holding exactly one record. -/
def singletonState (lock : TicketLock) : InMemoryState :=
  fun c => if c = lock.conversation_id then some lock else none

/-- Translation of `InMemoryLockStore.get_lock`: `self.conversation_locks.get(conversation_id)`. -/
def InMemoryLockStore.get_lock (st : InMemoryState) (conversation_id : String) :
    Option TicketLock :=
  st conversation_id

/-- Translation of `InMemoryLockStore.save_lock`:
`self.conversation_locks[lock.conversation_id] = lock`. -/
def InMemoryLockStore.save_lock (st : InMemoryState) (lock : TicketLock) : InMemoryState :=
  fun c => if c = lock.conversation_id then some lock else st c

/-- Value a Python function hands back to its caller, as far as this module
needs it: `None`, or a boolean. -/
inductive PyReturn
  | noneVal
  | boolVal (b : Bool)
deriving DecidableEq, Repr

/-- Result of a `delete_lock` call: the updated store state, the
`deletion_successful` flag passed to `_log_deletion`, and the value the Python
function returns to its caller. -/
structure DeleteLockResult where
  state : InMemoryState
  logged : Bool
  ret : PyReturn

/-- Translation of `InMemoryLockStore.delete_lock`: pops the record, logs
whether one existed (`deleted_lock is not None`), and — its body having no
`return` statement and its annotation being `-> None` — returns `None`. -/
def InMemoryLockStore.delete_lock (st : InMemoryState) (conversation_id : String) :
    DeleteLockResult :=
  { state := fun c => if c = conversation_id then none else st c,
    logged := (st conversation_id).isSome,
    ret := PyReturn.noneVal }

/-! ### LockStore operations (translated from `rasa/core/lock_store.py`),
instantiated at the in-memory backend -/

/-- Translation of `DEFAULT_LOCK_LIFETIME` from `rasa/core/constants.py`
line 15. -/
def DEFAULT_LOCK_LIFETIME : Int := 60

/-- Translation of `LockStore.create_lock`: builds a fresh `TicketLock` for the
conversation id (no tickets, counter at zero) and saves it. -/
def LockStore.create_lock (st : InMemoryState) (conversation_id : String) :
    TicketLock × InMemoryState :=
  let lock : TicketLock := ⟨conversation_id, [], 0⟩
  (lock, InMemoryLockStore.save_lock st lock)

/-- Translation of `LockStore.get_or_create_lock`: returns the existing lock
when present, otherwise creates and saves a new one. -/
def LockStore.get_or_create_lock (st : InMemoryState) (conversation_id : String) :
    TicketLock × InMemoryState :=
  match InMemoryLockStore.get_lock st conversation_id with
  | some existing_lock => (existing_lock, st)
  | none => LockStore.create_lock st conversation_id

/-- Translation of `LockStore.issue_ticket`.  `self_lifetime` is the store's
configured `self.lifetime`; `lifetime` is the Python argument, `none` standing
for Python `None` (the declared default being the module constant
`DEFAULT_LOCK_LIFETIME`, a caller omitting the argument passes
`some DEFAULT_LOCK_LIFETIME`).  The body keeps the argument unless it is
`None`, in which case it falls back to `self.lifetime`. -/
def LockStore.issue_ticket (self_lifetime : Int) (st : InMemoryState)
    (conversation_id : String) (lifetime : Option Int) (now : Int) :
    Nat × InMemoryState :=
  let lockAndState := LockStore.get_or_create_lock st conversation_id
  let effective_lifetime := match lifetime with
    | some l => l
    | none => self_lifetime
  let ticketAndLock := lockAndState.1.issue_ticket effective_lifetime now
  (ticketAndLock.1, InMemoryLockStore.save_lock lockAndState.2 ticketAndLock.2)

/-- Translation of the `ISSUING` step of the scoped `LockStore.lock` context
manager: it calls `self.issue_ticket(conversation_id)` with no lifetime
argument, so the Python default parameter value `DEFAULT_LOCK_LIFETIME` is
passed. -/
def LockStore.lock_issue_ticket (self_lifetime : Int) (st : InMemoryState)
    (conversation_id : String) (now : Int) : Nat × InMemoryState :=
  LockStore.issue_ticket self_lifetime st conversation_id (some DEFAULT_LOCK_LIFETIME) now

/-- Translation of `LockStore.update_lock`: fetch the lock, and when it exists
remove expired tickets and save it back. -/
def LockStore.update_lock (st : InMemoryState) (conversation_id : String) (now : Int) :
    InMemoryState :=
  match InMemoryLockStore.get_lock st conversation_id with
  | some lock => InMemoryLockStore.save_lock st (lock.remove_expired_tickets now)
  | none => st

/-- Translation of `LockStore.is_someone_waiting`: fetch the lock and ask it,
defaulting to `False` when no record exists. -/
def LockStore.is_someone_waiting (st : InMemoryState) (conversation_id : String)
    (now : Int) : Bool :=
  match InMemoryLockStore.get_lock st conversation_id with
  | some lock => lock.is_someone_waiting now
  | none => false

/-- Translation of `LockStore.finish_serving`: fetch the lock; when it exists,
remove the served ticket and save the lock.  The second component counts the
`save_lock` calls performed (`1` in the then-branch, `0` otherwise), recording
whether anything was persisted. -/
def LockStore.finish_serving (st : InMemoryState) (conversation_id : String)
    (ticket_number : Nat) : InMemoryState × Nat :=
  match InMemoryLockStore.get_lock st conversation_id with
  | some lock =>
    (InMemoryLockStore.save_lock st (lock.remove_ticket_for ticket_number), 1)
  | none => (st, 0)

/-- Translation of `LockStore.cleanup`: finish serving the ticket, then delete
the record when no one is waiting. -/
def LockStore.cleanup (st : InMemoryState) (conversation_id : String)
    (ticket_number : Nat) (now : Int) : InMemoryState :=
  let st1 := (LockStore.finish_serving st conversation_id ticket_number).1
  if LockStore.is_someone_waiting st1 conversation_id now then st1
  else (InMemoryLockStore.delete_lock st1 conversation_id).state

/-! ### The acquisition loop (`LockStore._acquire_lock`) -/

/-- Observable step of one `_acquire_lock` iteration: the backend fetch, the
in-turn check, the `asyncio.sleep(wait)` suspension, and the
`update_lock` prune-and-persist. -/
inductive AcquireEvent
  | fetch
  | check
  | sleepStep
  | updateStep
deriving DecidableEq, Repr

/-- Outcome of `_acquire_lock`: the returned lock, or the Python exception that
propagates out of the coroutine. -/
inductive AcquireOutcome
  | acquired (lock : TicketLock)
  | raised (e : RasaError)
deriving DecidableEq, Repr

/-- Run of `_acquire_lock` over the in-memory backend: final outcome, the
ordered event trace, the final store state, and the clock after all sleeps. -/
structure AcquireResult where
  outcome : AcquireOutcome
  events : List AcquireEvent
  state : InMemoryState
  now : Int

/-- Translation of `LockStore._acquire_lock` over the in-memory backend.
Each `while attempts > 0` iteration fetches the lock; a missing record breaks
out to the `LockError`; an unlocked ticket returns the lock; otherwise the
coroutine sleeps `wait`, runs `update_lock` (at the post-sleep time), and
decrements `attempts`.  Exhausting the budget raises `LockError` naming the
conversation id. -/
def acquire_loop (st : InMemoryState) (conversation_id : String) (ticket : Nat)
    (attempts : Nat) (wait : Int) (now : Int) : AcquireResult :=
  match attempts with
  | 0 => ⟨.raised (.lockError conversation_id), [], st, now⟩
  | n + 1 =>
    match InMemoryLockStore.get_lock st conversation_id with
    | none => ⟨.raised (.lockError conversation_id), [.fetch], st, now⟩
    | some lock =>
      if lock.is_locked ticket now then
        let now1 := now + wait
        let st1 := LockStore.update_lock st conversation_id now1
        let rest := acquire_loop st1 conversation_id ticket n wait now1
        ⟨rest.outcome, [.fetch, .check, .sleepStep, .updateStep] ++ rest.events,
         rest.state, rest.now⟩
      else ⟨.acquired lock, [.fetch, .check], st, now⟩

/-! ### Redis backend (`RedisLockStore`) -/

/-- State of the `RedisLockStore` connection: the key-value data (held here as
the deserialized `TicketLock` records, the JSON round-trip through
`dumps`/`from_dict` being the identity on the structural snapshot), plus a
reachability flag; every Redis command raises a connection error while the
server is unreachable. -/
structure RedisState where
  reachable : Bool
  data : String → Option TicketLock

/-- Translation of `RedisLockStore.get_lock`: `self.red.get` followed by
deserialization; raises the client connection error when unreachable. -/
def RedisLockStore.get_lock (st : RedisState) (conversation_id : String) :
    Except RasaError (Option TicketLock) :=
  if st.reachable then .ok (st.data conversation_id) else .error .connectionError

/-- Translation of `RedisLockStore.save_lock`: `self.red.set` of the serialized
lock under its conversation id; raises the client connection error when
unreachable. -/
def RedisLockStore.save_lock (st : RedisState) (lock : TicketLock) :
    Except RasaError RedisState :=
  if st.reachable then
    .ok { st with
            data := fun c => if c = lock.conversation_id then some lock else st.data c }
  else .error .connectionError

/-- Result of a reachable `RedisLockStore.delete_lock` call, mirroring
`DeleteLockResult`: `self.red.delete` reports the number of removed keys, whose
truthiness is the `deletion_successful` flag handed to `_log_deletion`; the
function body has no `return` statement, so `None` comes back. -/
structure RedisDeleteResult where
  state : RedisState
  logged : Bool
  ret : PyReturn

/-- Translation of `RedisLockStore.delete_lock`; raises the client connection
error when unreachable. -/
def RedisLockStore.delete_lock (st : RedisState) (conversation_id : String) :
    Except RasaError RedisDeleteResult :=
  if st.reachable then
    .ok { state := { st with data := fun c => if c = conversation_id then none else st.data c },
          logged := (st.data conversation_id).isSome,
          ret := PyReturn.noneVal }
  else .error .connectionError

/-- Translation of `LockStore.update_lock` over the Redis backend: fetch, and
when a lock exists remove expired tickets and save; either Redis command can
raise. -/
def RedisLockStore.update_lock (st : RedisState) (conversation_id : String) (now : Int) :
    Except RasaError RedisState :=
  match RedisLockStore.get_lock st conversation_id with
  | .error e => .error e
  | .ok none => .ok st
  | .ok (some lock) => RedisLockStore.save_lock st (lock.remove_expired_tickets now)

/-- Run of `_acquire_lock` over the Redis backend. -/
structure RedisAcquireResult where
  outcome : AcquireOutcome
  events : List AcquireEvent
  state : RedisState
  now : Int

/-- Translation of `LockStore._acquire_lock` over the Redis backend:
identical control flow to `acquire_loop`, except that the fetch and the
prune-and-persist update go through the Redis client, whose connection errors
propagate out of the coroutine (there is no surrounding `try`). -/
def acquire_loop_redis (st : RedisState) (conversation_id : String) (ticket : Nat)
    (attempts : Nat) (wait : Int) (now : Int) : RedisAcquireResult :=
  match attempts with
  | 0 => ⟨.raised (.lockError conversation_id), [], st, now⟩
  | n + 1 =>
    match RedisLockStore.get_lock st conversation_id with
    | .error e => ⟨.raised e, [.fetch], st, now⟩
    | .ok none => ⟨.raised (.lockError conversation_id), [.fetch], st, now⟩
    | .ok (some lock) =>
      if lock.is_locked ticket now then
        let now1 := now + wait
        match RedisLockStore.update_lock st conversation_id now1 with
        | .error e => ⟨.raised e, [.fetch, .check, .sleepStep], st, now1⟩
        | .ok st1 =>
          let rest := acquire_loop_redis st1 conversation_id ticket n wait now1
          ⟨rest.outcome, [.fetch, .check, .sleepStep, .updateStep] ++ rest.events,
           rest.state, rest.now⟩
      else ⟨.acquired lock, [.fetch, .check], st, now⟩

/-! ### Store selection (`LockStore.find_lock_store`) -/

/-- Translation of the relevant fields of `EndpointConfig` from
`rasa/utils/endpoints.py` as consumed by `find_lock_store`: the store type tag
(`None` possible) and the connection url. -/
structure EndpointConfig where
  type : Option String
  url : String
deriving DecidableEq, Repr

/-- Translation of `ACCEPTED_LOCK_STORES` from `lock_store.py` line 14. -/
def ACCEPTED_LOCK_STORES : List String := ["in_memory", "redis"]

/-- Kind of store `find_lock_store` constructs. -/
inductive LockStoreChoice
  | inMemory
  | redis
deriving DecidableEq, Repr

/-- Translation of `LockStore.find_lock_store`: a missing config, a missing
type tag, or the tag `in_memory` yields the in-memory store; the tag `redis`
yields the Redis store; any other tag raises `ValueError` at construction
time. -/
def find_lock_store (store : Option EndpointConfig) : Except RasaError LockStoreChoice :=
  match store with
  | none => .ok .inMemory
  | some s =>
    if s.type = none ∨ s.type = some "in_memory" then .ok .inMemory
    else if s.type = some "redis" then .ok .redis
    else .error (.valueError "Cannot create a LockStore of the requested type.")

/-! ### Transition system on a single TicketLock (for the FIFO and mutual
exclusion guarantee) -/

/-- Operations other participants can perform on one conversation's queue
between two observations: issuing a fresh ticket, removing a ticket (release),
and pruning expired tickets. -/
inductive LockOp
  | issueOp (lifetime : Int) (now : Int)
  | removeOp (ticket_number : Nat)
  | pruneOp (now : Int)

/-- Effect of one operation on the queue, via the modelled `TicketLock`
operations. -/
def LockOp.apply (lock : TicketLock) : LockOp → TicketLock
  | .issueOp lifetime now => (lock.issue_ticket lifetime now).2
  | .removeOp t => lock.remove_ticket_for t
  | .pruneOp now => lock.remove_expired_tickets now

/-- Queue reached after a sequence of operations. -/
def applyOps (lock : TicketLock) : List LockOp → TicketLock
  | [] => lock
  | op :: ops => applyOps (op.apply lock) ops

/-- A ticket number is outstanding when a non-expired ticket with that number
is present in the queue. -/
def TicketLock.outstanding (lock : TicketLock) (ticket : Nat) (now : Int) : Bool :=
  (lock.remove_expired_tickets now).tickets.any (fun t => t.number == ticket)

/-- The lock grants turn to a ticket when that ticket is outstanding and the
in-turn check succeeds — exactly the state in which `_acquire_lock` hands the
lock for that ticket to its caller. -/
def TicketLock.grants (lock : TicketLock) (ticket : Nat) (now : Int) : Bool :=
  lock.outstanding ticket now && lock.is_in_turn ticket now

/-- Counter bound invariant of §3: every ticket number in the queue is below
the persisted `next_ticket_number` counter. -/
def TicketLock.counter_bound (lock : TicketLock) : Bool :=
  lock.tickets.all (fun t => t.number < lock.next_ticket_number)

/-! ### Theorems -/

/-- C10: for every conversation id with no stored lock record, `finish_serving`
leaves the backend state completely unchanged: it performs no `save_lock`
call, creates no record, and (being a total function here, as in the source,
where the `if lock:` guard skips the whole body) raises no error. -/
theorem finish_serving_absent_is_noop (st : InMemoryState) (conversation_id : String)
    (ticket_number : Nat) (h : st conversation_id = none) :
    LockStore.finish_serving st conversation_id ticket_number = (st, 0) := by
  unfold LockStore.finish_serving InMemoryLockStore.get_lock
  rw [h]

/-- Witness for C10: on the empty store no record exists for `"c"` and
`finish_serving` returns the store untouched with zero persists. -/
theorem finish_serving_absent_is_noop_witness :
    emptyState "c" = none ∧ LockStore.finish_serving emptyState "c" 7 = (emptyState, 0) :=
  ⟨rfl, finish_serving_absent_is_noop emptyState "c" 7 rfl⟩

/-- C4: when a re-fetch inside the `WAITING` loop finds no record for the
conversation id, `_acquire_lock` raises `LockError` immediately: the trace is
the single fetch (no sleep, no further attempt, no update), and the store
state is returned unchanged, so the record is not re-created within the
call. -/
theorem acquire_absent_record_immediate_error (st : InMemoryState)
    (conversation_id : String) (ticket n : Nat) (wait now : Int)
    (h : InMemoryLockStore.get_lock st conversation_id = none) :
    acquire_loop st conversation_id ticket (n + 1) wait now
        = ⟨.raised (.lockError conversation_id), [.fetch], st, now⟩ ∧
    (acquire_loop st conversation_id ticket (n + 1) wait now).state conversation_id
        = none := by
  have hrun : acquire_loop st conversation_id ticket (n + 1) wait now
      = ⟨.raised (.lockError conversation_id), [.fetch], st, now⟩ := by
    unfold acquire_loop
    rw [h]
  exact ⟨hrun, by rw [hrun]; exact h⟩

/-- Witness for C4: with the record for `"c"` absent, one fetch and an
immediate `LockError`, at any positive attempt budget. -/
theorem acquire_absent_record_immediate_error_witness :
    InMemoryLockStore.get_lock emptyState "c" = none ∧
    (acquire_loop emptyState "c" 0 (2 + 1) 1 0
        = ⟨.raised (.lockError "c"), [.fetch], emptyState, 0⟩ ∧
     (acquire_loop emptyState "c" 0 (2 + 1) 1 0).state "c" = none) :=
  ⟨rfl, acquire_absent_record_immediate_error emptyState "c" 0 2 1 0 rfl⟩

/-- C3: after `cleanup` (the release path run on scope exit) the record for the
conversation id is present only if someone is still waiting: whenever
`is_someone_waiting` is false on the resulting state, `get_lock` returns
absent.  `cleanup` indeed first removes the caller's ticket and persists the
queue (`finish_serving`), and only then deletes the record. -/
theorem cleanup_without_waiters_deletes_record (st : InMemoryState)
    (conversation_id : String) (ticket_number : Nat) (now : Int)
    (h : LockStore.is_someone_waiting
          (LockStore.cleanup st conversation_id ticket_number now) conversation_id now
        = false) :
    InMemoryLockStore.get_lock
        (LockStore.cleanup st conversation_id ticket_number now) conversation_id
      = none := by
  simp only [LockStore.cleanup] at h ⊢
  cases hb : LockStore.is_someone_waiting
      (LockStore.finish_serving st conversation_id ticket_number).1 conversation_id now with
  | true => simp [hb] at h
  | false => simp [hb, InMemoryLockStore.get_lock, InMemoryLockStore.delete_lock]

/-- Witness for C3: a store holding one ticket for `"c"`; releasing that
ticket leaves no waiter, and the record is gone. -/
theorem cleanup_without_waiters_deletes_record_witness :
    LockStore.is_someone_waiting
        (LockStore.cleanup (singletonState ⟨"c", [⟨0, 10⟩], 1⟩) "c" 0 0) "c" 0 = false ∧
    InMemoryLockStore.get_lock
        (LockStore.cleanup (singletonState ⟨"c", [⟨0, 10⟩], 1⟩) "c" 0 0) "c" = none :=
  ⟨by decide, cleanup_without_waiters_deletes_record _ "c" 0 0 (by decide)⟩

/-- Helper: the in-memory acquisition loop only ever returns the acquired lock
or raises `LockError` for its own conversation id. -/
theorem acquire_loop_outcome_cases (conversation_id : String) (ticket : Nat) (wait : Int) :
    ∀ (attempts : Nat) (st : InMemoryState) (now : Int),
      (acquire_loop st conversation_id ticket attempts wait now).outcome
          = .raised (.lockError conversation_id)
      ∨ ∃ lock, (acquire_loop st conversation_id ticket attempts wait now).outcome
          = .acquired lock := by
  intro attempts
  induction attempts with
  | zero => intro st now; left; rfl
  | succ n ih =>
    intro st now
    unfold acquire_loop
    cases hg : InMemoryLockStore.get_lock st conversation_id with
    | none => left; rfl
    | some lock =>
      cases hl : lock.is_locked ticket now with
      | true =>
        simp only [hl, if_true]
        exact ih _ _
      | false =>
        simp only [hl, Bool.false_eq_true, if_false]
        right
        exact ⟨lock, rfl⟩

/-- C7: an endpoint configuration whose type tag is present but not one of
`ACCEPTED_LOCK_STORES` makes `find_lock_store` raise `ValueError` at
construction time, while the per-call acquisition loop never raises a
configuration `ValueError` — its only exception is `LockError`. -/
theorem find_lock_store_unknown_type_fatal :
    (∀ (cfg : EndpointConfig) (t : String), cfg.type = some t →
        t ∉ ACCEPTED_LOCK_STORES →
        ∃ m, find_lock_store (some cfg) = .error (.valueError m)) ∧
    (∀ (st : InMemoryState) (conversation_id : String) (ticket attempts : Nat)
        (wait now : Int) (m : String),
        (acquire_loop st conversation_id ticket attempts wait now).outcome
          ≠ .raised (.valueError m)) := by
  constructor
  · intro cfg t ht hmem
    have h1 : t ≠ "in_memory" := by
      intro he; exact hmem (by rw [he]; simp [ACCEPTED_LOCK_STORES])
    have h2 : t ≠ "redis" := by
      intro he; exact hmem (by rw [he]; simp [ACCEPTED_LOCK_STORES])
    refine ⟨"Cannot create a LockStore of the requested type.", ?_⟩
    simp only [find_lock_store]
    rw [ht]
    simp [h1, h2]
  · intro st conversation_id ticket attempts wait now m
    rcases acquire_loop_outcome_cases conversation_id ticket wait attempts st now with
      h | ⟨lock, h⟩ <;> rw [h] <;> intro hc <;> cases hc

/-- Witness for C7: the tag `"mongo"` is rejected at construction, and a
concrete acquisition run raises no `ValueError`. -/
theorem find_lock_store_unknown_type_fatal_witness :
    (∃ m, find_lock_store (some ⟨some "mongo", ""⟩) = .error (.valueError m)) ∧
    (acquire_loop emptyState "c" 0 2 1 0).outcome
      ≠ .raised (.valueError "nope") :=
  ⟨find_lock_store_unknown_type_fatal.1 ⟨some "mongo", ""⟩ "mongo" rfl (by decide),
   find_lock_store_unknown_type_fatal.2 emptyState "c" 0 2 1 0 "nope"⟩

/-- C9: when the Redis backend is unreachable, the fetch inside the
acquisition loop raises the client connection error, which propagates to the
caller as-is and is never converted into the `LockError` timeout. -/
theorem acquire_unreachable_surfaces_backend_error (st : RedisState)
    (conversation_id : String) (ticket n : Nat) (wait now : Int)
    (h : st.reachable = false) :
    (acquire_loop_redis st conversation_id ticket (n + 1) wait now).outcome
        = .raised .connectionError ∧
    ∀ c, (acquire_loop_redis st conversation_id ticket (n + 1) wait now).outcome
        ≠ .raised (.lockError c) := by
  have hget : RedisLockStore.get_lock st conversation_id = .error .connectionError := by
    unfold RedisLockStore.get_lock
    rw [h]
    rfl
  have hrun : (acquire_loop_redis st conversation_id ticket (n + 1) wait now).outcome
      = .raised .connectionError := by
    unfold acquire_loop_redis
    rw [hget]
  exact ⟨hrun, by intro c; rw [hrun]; intro hc; cases hc⟩

/-- Witness for C9: a concretely unreachable Redis backend surfaces the
connection error on an acquisition attempt. -/
theorem acquire_unreachable_surfaces_backend_error_witness :
    (⟨false, fun _ => none⟩ : RedisState).reachable = false ∧
    ((acquire_loop_redis ⟨false, fun _ => none⟩ "c" 0 (1 + 1) 1 0).outcome
        = .raised .connectionError ∧
     ∀ c, (acquire_loop_redis ⟨false, fun _ => none⟩ "c" 0 (1 + 1) 1 0).outcome
        ≠ .raised (.lockError c)) :=
  ⟨rfl, acquire_unreachable_surfaces_backend_error ⟨false, fun _ => none⟩ "c" 0 1 1 0 rfl⟩

/-- A store holding exactly one ticket for conversation `"c"`. -/
def oneTicketState : InMemoryState := singletonState ⟨"c", [⟨0, 100⟩], 1⟩

/-- C6 counterexample: `delete_lock` does not return whether a record existed.
On a store that does hold a record for `"c"`, the value handed back to the
caller is `None` (the Python body has no `return` statement), not the boolean
encoding the record's existence. -/
theorem delete_lock_return_value_counterexample :
    ¬ ((InMemoryLockStore.delete_lock oneTicketState "c").ret
        = PyReturn.boolVal ((oneTicketState "c").isSome)) := by decide

/-- C6 amended: both backends compute whether a record existed and report it
only through `_log_deletion`; the record is removed, and the function returns
`None` to its caller. -/
theorem delete_lock_logs_existence_returns_none :
    (∀ (st : InMemoryState) (conversation_id : String),
        (InMemoryLockStore.delete_lock st conversation_id).logged
            = (st conversation_id).isSome ∧
        (InMemoryLockStore.delete_lock st conversation_id).ret = PyReturn.noneVal ∧
        (InMemoryLockStore.delete_lock st conversation_id).state conversation_id = none) ∧
    (∀ (st : RedisState) (conversation_id : String), st.reachable = true →
        ∃ r, RedisLockStore.delete_lock st conversation_id = .ok r ∧
          r.logged = (st.data conversation_id).isSome ∧
          r.ret = PyReturn.noneVal ∧
          r.state.data conversation_id = none) := by
  constructor
  · intro st conversation_id
    refine ⟨rfl, rfl, ?_⟩
    simp [InMemoryLockStore.delete_lock]
  · intro st conversation_id h
    refine ⟨{ state := { st with
                data := fun c => if c = conversation_id then none else st.data c },
              logged := (st.data conversation_id).isSome,
              ret := PyReturn.noneVal }, ?_, rfl, rfl, ?_⟩
    · simp [RedisLockStore.delete_lock, h]
    · simp

/-- Witness for the amended C6: concrete deletions on both backends log the
existence flag and return `None`. -/
theorem delete_lock_logs_existence_returns_none_witness :
    ((InMemoryLockStore.delete_lock oneTicketState "c").logged
        = (oneTicketState "c").isSome ∧
     (InMemoryLockStore.delete_lock oneTicketState "c").ret = PyReturn.noneVal ∧
     (InMemoryLockStore.delete_lock oneTicketState "c").state "c" = none) ∧
    (∃ r, RedisLockStore.delete_lock ⟨true, fun _ => none⟩ "c" = .ok r ∧
       r.logged = ((fun _ => none : String → Option TicketLock) "c").isSome ∧
       r.ret = PyReturn.noneVal ∧
       r.state.data "c" = none) :=
  ⟨delete_lock_logs_existence_returns_none.1 oneTicketState "c",
   delete_lock_logs_existence_returns_none.2 ⟨true, fun _ => none⟩ "c" rfl⟩

/-- Expiry timestamp of the ticket issued by the `ISSUING` step of the scoped
`lock` operation: the ticket appended last to the queue persisted under the
conversation id. -/
def issued_ticket_expiry (self_lifetime : Int) (st : InMemoryState)
    (conversation_id : String) (now : Int) : Option Int :=
  match (LockStore.lock_issue_ticket self_lifetime st conversation_id now).2
      conversation_id with
  | some lock => lock.tickets.getLast?.map Ticket.expires_at
  | none => none

/-- C5 counterexample: a store configured with default lifetime `5` still
issues, through the scoped `lock` operation, a ticket expiring at
`now + DEFAULT_LOCK_LIFETIME` — not at `now + 5`.  The scoped call
`self.issue_ticket(conversation_id)` lets the parameter default
`DEFAULT_LOCK_LIFETIME` (not `None`) stand in, so the
`if lifetime is not None` fallback to `self.lifetime` never fires. -/
theorem lock_configured_lifetime_counterexample :
    issued_ticket_expiry 5 emptyState "c" 0 ≠ some (0 + 5) ∧
    issued_ticket_expiry 5 emptyState "c" 0 = some (0 + DEFAULT_LOCK_LIFETIME) := by
  decide

/-- Well-formedness of the in-memory map as maintained by `save_lock`: every
stored lock is keyed by its own conversation id. -/
def StoreWF (st : InMemoryState) : Prop :=
  ∀ (c : String) (lock : TicketLock), st c = some lock → lock.conversation_id = c

/-- C5 amended: whatever default lifetime the store is configured with, the
ticket issued by the scoped `lock` operation expires at
`now + DEFAULT_LOCK_LIFETIME` (the module constant, 60); the configured
`self.lifetime` is reached only when `issue_ticket` is explicitly passed
lifetime `None`. -/
theorem lock_issues_module_default_lifetime (self_lifetime : Int)
    (st : InMemoryState) (conversation_id : String) (now : Int)
    (hwf : StoreWF st) :
    issued_ticket_expiry self_lifetime st conversation_id now
      = some (now + DEFAULT_LOCK_LIFETIME) := by
  simp only [issued_ticket_expiry, LockStore.lock_issue_ticket, LockStore.issue_ticket,
    LockStore.get_or_create_lock, InMemoryLockStore.get_lock]
  cases hg : st conversation_id with
  | none =>
    simp [LockStore.create_lock, TicketLock.issue_ticket, InMemoryLockStore.save_lock]
  | some lock =>
    have hc : lock.conversation_id = conversation_id := hwf conversation_id lock hg
    simp [TicketLock.issue_ticket, InMemoryLockStore.save_lock, hc]

/-- Witness for the amended C5: on the empty store (vacuously well formed) a
scoped acquisition with configured lifetime `5` issues a ticket expiring at
`0 + 60`. -/
theorem lock_issues_module_default_lifetime_witness :
    StoreWF emptyState ∧
    issued_ticket_expiry 5 emptyState "c" 0 = some (0 + DEFAULT_LOCK_LIFETIME) :=
  ⟨fun _ _ h => Option.noConfusion h,
   lock_issues_module_default_lifetime 5 emptyState "c" 0
     (fun _ _ h => Option.noConfusion h)⟩

/-- A store where conversation `"c"` has two live tickets, the caller holding
ticket `1` behind ticket `0`. -/
def twoTicketState : InMemoryState := singletonState ⟨"c", [⟨0, 100⟩, ⟨1, 100⟩], 2⟩

/-- C8 counterexample: in a `WAITING` iteration whose ticket is not in turn the
loop does not prune-and-persist before sleeping.  A concrete single-attempt
run produces the trace fetch, check, sleep, update — not the claimed fetch,
check, update, sleep. -/
theorem waiting_iteration_order_counterexample :
    (acquire_loop twoTicketState "c" 1 1 1 0).events
        ≠ [.fetch, .check, .updateStep, .sleepStep] ∧
    (acquire_loop twoTicketState "c" 1 1 1 0).events
        = [.fetch, .check, .sleepStep, .updateStep] := by decide

/-- C8 amended: in every `WAITING` iteration whose ticket is not in turn the
manager first sleeps the wait interval, then prunes expired tickets and
persists the pruned queue (`update_lock`, run at the post-sleep time
`now + wait`), and then decrements the attempt budget, continuing with the
remaining attempts from the updated store. -/
theorem waiting_iteration_sleeps_then_updates (st : InMemoryState)
    (conversation_id : String) (ticket n : Nat) (wait now : Int) (lock : TicketLock)
    (hget : InMemoryLockStore.get_lock st conversation_id = some lock)
    (hlocked : lock.is_locked ticket now = true) :
    acquire_loop st conversation_id ticket (n + 1) wait now
      = { outcome := (acquire_loop (LockStore.update_lock st conversation_id (now + wait))
                        conversation_id ticket n wait (now + wait)).outcome,
          events := [.fetch, .check, .sleepStep, .updateStep]
            ++ (acquire_loop (LockStore.update_lock st conversation_id (now + wait))
                  conversation_id ticket n wait (now + wait)).events,
          state := (acquire_loop (LockStore.update_lock st conversation_id (now + wait))
                      conversation_id ticket n wait (now + wait)).state,
          now := (acquire_loop (LockStore.update_lock st conversation_id (now + wait))
                    conversation_id ticket n wait (now + wait)).now } := by
  simp only [acquire_loop]
  rw [hget]
  simp [hlocked]

/-- Witness for the amended C8: the single-attempt run on the two-ticket store
unfolds to sleep first and update second. -/
theorem waiting_iteration_sleeps_then_updates_witness :
    InMemoryLockStore.get_lock twoTicketState "c"
        = some ⟨"c", [⟨0, 100⟩, ⟨1, 100⟩], 2⟩ ∧
    (⟨"c", [⟨0, 100⟩, ⟨1, 100⟩], 2⟩ : TicketLock).is_locked 1 0 = true ∧
    acquire_loop twoTicketState "c" 1 (0 + 1) 1 0
      = { outcome := (acquire_loop (LockStore.update_lock twoTicketState "c" (0 + 1))
                        "c" 1 0 1 (0 + 1)).outcome,
          events := [.fetch, .check, .sleepStep, .updateStep]
            ++ (acquire_loop (LockStore.update_lock twoTicketState "c" (0 + 1))
                  "c" 1 0 1 (0 + 1)).events,
          state := (acquire_loop (LockStore.update_lock twoTicketState "c" (0 + 1))
                      "c" 1 0 1 (0 + 1)).state,
          now := (acquire_loop (LockStore.update_lock twoTicketState "c" (0 + 1))
                    "c" 1 0 1 (0 + 1)).now } :=
  ⟨by decide, by decide,
   waiting_iteration_sleeps_then_updates twoTicketState "c" 1 0 1 0
     ⟨"c", [⟨0, 100⟩, ⟨1, 100⟩], 2⟩ (by decide) (by decide)⟩

/-- Store state and clock the `WAITING` loop observes at the start of its
`k`-th iteration: `k` sleeps of `wait` followed each by an `update_lock` at
the post-sleep time. -/
def waitingState (st : InMemoryState) (conversation_id : String) (wait now : Int) :
    Nat → InMemoryState × Int
  | 0 => (st, now)
  | k + 1 =>
    let prev := waitingState st conversation_id wait now k
    (LockStore.update_lock prev.1 conversation_id (prev.2 + wait), prev.2 + wait)

/-- Condition that the lock record exists and remains locked against the
caller's ticket at each of the first `attempts` iterations of the `WAITING`
loop — the existing ticket never releases. -/
def lockedThroughout (st : InMemoryState) (conversation_id : String) (ticket : Nat)
    (wait now : Int) (attempts : Nat) : Bool :=
  (List.range attempts).all fun k =>
    match (waitingState st conversation_id wait now k).1 conversation_id with
    | some lock => lock.is_locked ticket (waitingState st conversation_id wait now k).2
    | none => false

/-- Event trace of `attempts` complete failed iterations: each consists of one
fetch, one in-turn check, one sleep and one prune-and-persist update. -/
def attemptTrace : Nat → List AcquireEvent
  | 0 => []
  | n + 1 => [.fetch, .check, .sleepStep, .updateStep] ++ attemptTrace n

/-- Helper: the loop state after `k` iterations starting from the once-updated
store is the state after `k + 1` iterations from the original store. -/
theorem waitingState_shift (st : InMemoryState) (conversation_id : String)
    (wait now : Int) :
    ∀ k, waitingState (LockStore.update_lock st conversation_id (now + wait))
            conversation_id wait (now + wait) k
          = waitingState st conversation_id wait now (k + 1) := by
  intro k
  induction k with
  | zero => rfl
  | succ k ih =>
    show (let prev := waitingState (LockStore.update_lock st conversation_id (now + wait))
              conversation_id wait (now + wait) k
          (LockStore.update_lock prev.1 conversation_id (prev.2 + wait), prev.2 + wait))
        = _
    rw [ih]
    rfl

/-- Helper: peeling one iteration off `lockedThroughout`. -/
theorem lockedThroughout_succ (st : InMemoryState) (conversation_id : String)
    (ticket : Nat) (wait now : Int) (n : Nat)
    (h : lockedThroughout st conversation_id ticket wait now (n + 1) = true) :
    (match st conversation_id with
     | some lock => lock.is_locked ticket now
     | none => false) = true ∧
    lockedThroughout (LockStore.update_lock st conversation_id (now + wait))
        conversation_id ticket wait (now + wait) n = true := by
  rw [lockedThroughout, List.range_succ_eq_map, List.all_cons, List.all_map,
    Bool.and_eq_true] at h
  refine ⟨h.1, ?_⟩
  rw [lockedThroughout, List.all_eq_true]
  intro k hk
  have := (List.all_eq_true.1 h.2) k hk
  simpa [Function.comp, waitingState_shift] using this

/-- C2: for every attempt budget, if the lock record exists and remains locked
against the caller's ticket at every iteration the loop performs, then
`_acquire_lock` raises `LockError` naming the conversation id after exactly
that many attempts, each attempt consisting of one fetch, one in-turn check,
one sleep of the wait interval, and one prune-and-persist update. -/
theorem acquire_exhausts_attempt_budget (st : InMemoryState) (conversation_id : String)
    (ticket : Nat) (attempts : Nat) (wait now : Int)
    (h : lockedThroughout st conversation_id ticket wait now attempts = true) :
    (acquire_loop st conversation_id ticket attempts wait now).outcome
        = .raised (.lockError conversation_id) ∧
    (acquire_loop st conversation_id ticket attempts wait now).events
        = attemptTrace attempts := by
  induction attempts generalizing st now with
  | zero => exact ⟨rfl, rfl⟩
  | succ n ih =>
    obtain ⟨h0, hrest⟩ := lockedThroughout_succ st conversation_id ticket wait now n h
    cases hg : st conversation_id with
    | none => rw [hg] at h0; cases h0
    | some lock =>
      rw [hg] at h0
      have h0l : lock.is_locked ticket now = true := h0
      have hrec := ih (LockStore.update_lock st conversation_id (now + wait))
        (now + wait) hrest
      constructor
      · simp only [acquire_loop, InMemoryLockStore.get_lock, hg, h0l, if_true]
        exact hrec.1
      · simp only [acquire_loop, InMemoryLockStore.get_lock, hg, h0l, if_true]
        rw [attemptTrace]
        simp only [List.cons_append, List.nil_append, List.cons.injEq, true_and]
        exact hrec.2

/-- Witness for C2: two tickets for `"c"` that never expire, the caller stuck
behind ticket `0` for the whole budget of `2` attempts; the run raises
`LockError` with the trace of two complete attempts. -/
theorem acquire_exhausts_attempt_budget_witness :
    lockedThroughout twoTicketState "c" 1 1 0 2 = true ∧
    ((acquire_loop twoTicketState "c" 1 2 1 0).outcome = .raised (.lockError "c") ∧
     (acquire_loop twoTicketState "c" 1 2 1 0).events = attemptTrace 2) :=
  ⟨by decide, acquire_exhausts_attempt_budget twoTicketState "c" 1 2 1 0 (by decide)⟩

/-- Helper: a nonempty ticket list has a minimum ticket number. -/
theorem minTicketNumber_cons_isSome (t : Ticket) (ts : List Ticket) :
    (minTicketNumber (t :: ts)).isSome = true := by
  cases h : minTicketNumber ts <;> simp [minTicketNumber, h]

/-- Helper: the minimum ticket number bounds every ticket in the list. -/
theorem minTicketNumber_le :
    ∀ (ts : List Ticket) (m : Nat), minTicketNumber ts = some m →
      ∀ tk ∈ ts, m ≤ tk.number := by
  intro ts
  induction ts with
  | nil => intro m hm; cases hm
  | cons t ts ih =>
    intro m hm tk htk
    cases hr : minTicketNumber ts with
    | none =>
      rw [minTicketNumber, hr] at hm
      cases hm
      rcases List.mem_cons.1 htk with h | h
      · rw [h]
      · cases ts with
        | nil => cases h
        | cons u us => have := minTicketNumber_cons_isSome u us; rw [hr] at this; cases this
    | some m0 =>
      rw [minTicketNumber, hr] at hm
      cases hm
      rcases List.mem_cons.1 htk with h | h
      · rw [h]; exact min_le_left _ _
      · exact le_trans (min_le_right _ _) (ih m0 hr tk h)

/-- Helper: an outstanding ticket number is carried by a ticket that is in the
queue and not yet expired. -/
theorem TicketLock.outstanding_elim (lock : TicketLock) (t : Nat) (now : Int)
    (h : lock.outstanding t now = true) :
    ∃ tk, tk ∈ lock.tickets ∧ tk.number = t ∧ now < tk.expires_at := by
  rw [TicketLock.outstanding, List.any_eq_true] at h
  rcases h with ⟨tk, htk, hbeq⟩
  rw [TicketLock.remove_expired_tickets] at htk
  rcases List.mem_filter.1 htk with ⟨hmem, hdec⟩
  exact ⟨tk, hmem, eq_of_beq hbeq, of_decide_eq_true hdec⟩

/-- Helper: a granted ticket is the minimum ticket number of the pruned
queue. -/
theorem TicketLock.grants_eq_min (lock : TicketLock) (t : Nat) (now : Int)
    (h : lock.grants t now = true) :
    minTicketNumber (lock.remove_expired_tickets now).tickets = some t := by
  rw [TicketLock.grants, Bool.and_eq_true] at h
  rcases h with ⟨hout, hturn⟩
  rw [TicketLock.outstanding, List.any_eq_true] at hout
  rcases hout with ⟨tk, htk, hbeq⟩
  rw [TicketLock.is_in_turn] at hturn
  cases hm : minTicketNumber (lock.remove_expired_tickets now).tickets with
  | none =>
    cases hcons : (lock.remove_expired_tickets now).tickets with
    | nil => rw [hcons] at htk; cases htk
    | cons u us =>
      have := minTicketNumber_cons_isSome u us
      rw [← hcons, hm] at this
      cases this
  | some m =>
    rw [hm] at hturn
    simp only [beq_iff_eq] at hturn
    rw [hturn]

/-- Helper: when a ticket is granted, every smaller-numbered ticket in the
queue has already expired. -/
theorem TicketLock.grants_smaller_expired (lock : TicketLock) (t : Nat) (now : Int)
    (h : lock.grants t now = true) :
    ∀ tk ∈ lock.tickets, tk.number < t → tk.expires_at ≤ now := by
  intro tk htk hlt
  by_contra hc
  push_neg at hc
  have hmem : tk ∈ (lock.remove_expired_tickets now).tickets := by
    rw [TicketLock.remove_expired_tickets]
    exact List.mem_filter.2 ⟨htk, decide_eq_true hc⟩
  have := minTicketNumber_le _ t (lock.grants_eq_min t now h) tk hmem
  omega

/-- Helper: one queue operation never decreases the persisted counter. -/
theorem LockOp.apply_counter_le (lock : TicketLock) (op : LockOp) :
    lock.next_ticket_number ≤ (op.apply lock).next_ticket_number := by
  cases op with
  | issueOp lifetime now => exact Nat.le_succ _
  | removeOp t => exact le_refl _
  | pruneOp now => exact le_refl _

/-- Helper: a ticket present after a run of operations whose number lies below
the original counter was already present originally — operations only remove
tickets or append fresh ones numbered at or above the counter. -/
theorem applyOps_mem_old :
    ∀ (ops : List LockOp) (lock : TicketLock) (tk : Ticket),
      tk ∈ (applyOps lock ops).tickets → tk.number < lock.next_ticket_number →
      tk ∈ lock.tickets := by
  intro ops
  induction ops with
  | nil => intro lock tk h _; exact h
  | cons op ops ih =>
    intro lock tk h hn
    have hstep : tk ∈ (op.apply lock).tickets :=
      ih (op.apply lock) tk h (lt_of_lt_of_le hn (LockOp.apply_counter_le lock op))
    cases op with
    | issueOp lifetime now =>
      rcases List.mem_append.1 hstep with hmem | hnew
      · exact hmem
      · rcases List.mem_singleton.1 hnew with rfl
        exact absurd hn (lt_irrefl _)
    | removeOp t => exact (List.mem_filter.1 hstep).1
    | pruneOp now => exact (List.mem_filter.1 hstep).1

/-- Helper: mutual exclusion at one instant — two granted outstanding tickets
coincide. -/
theorem TicketLock.grants_unique (lock : TicketLock) (now : Int) (t1 t2 : Nat)
    (h1 : lock.grants t1 now = true) (h2 : lock.grants t2 now = true) : t1 = t2 := by
  have e1 := lock.grants_eq_min t1 now h1
  have e2 := lock.grants_eq_min t2 now h2
  rw [e1] at e2
  exact Option.some_inj.1 e2

/-- Helper: a grant strictly precedes, in ticket-number order, every later
grant of a different ticket, however the queue evolves in between. -/
theorem TicketLock.grants_increasing (lock : TicketLock)
    (hwf : lock.counter_bound = true) (now now' : Int) (hle : now ≤ now')
    (t : Nat) (h : lock.grants t now = true) (ops : List LockOp) (t' : Nat)
    (hne : t' ≠ t) (h' : (applyOps lock ops).grants t' now' = true) : t < t' := by
  have hout : lock.outstanding t now = true := by
    have hh := h
    rw [TicketLock.grants, Bool.and_eq_true] at hh
    exact hh.1
  rcases lock.outstanding_elim t now hout with ⟨tkt, htkt, htn, _⟩
  have htc : t < lock.next_ticket_number := by
    have := (List.all_eq_true.1 hwf) tkt htkt
    rw [htn] at this
    exact of_decide_eq_true this
  have hout' : (applyOps lock ops).outstanding t' now' = true := by
    have hh := h'
    rw [TicketLock.grants, Bool.and_eq_true] at hh
    exact hh.1
  rcases (applyOps lock ops).outstanding_elim t' now' hout' with ⟨tk', htk', htn', hlive⟩
  rcases Nat.lt_or_ge t t' with hgoal | hge
  · exact hgoal
  · exfalso
    have hlt : t' < t := Nat.lt_of_le_of_ne hge hne
    have hold : tk' ∈ lock.tickets :=
      applyOps_mem_old ops lock tk' htk' (by omega)
    have hexp : tk'.expires_at ≤ now :=
      lock.grants_smaller_expired t now h tk' hold (by omega)
    omega

/-- C1: among the tickets concurrently outstanding for one conversation id
turns are granted in strictly increasing ticket-number order, and at most one
ticket holds turn at any instant.  A grant is the state in which
`_acquire_lock` returns the lock: the ticket is outstanding (present and not
expired — an expired ticket forfeits its position) and the in-turn check
succeeds.  Part one: two grants at one instant coincide.  Part two: from any
queue satisfying the counter invariant of §3, after any sequence of issue,
release and prune operations and any non-decreasing passage of time, a grant
of a different ticket carries a strictly larger number. -/
theorem ticket_turns_fifo_and_mutually_exclusive :
    (∀ (lock : TicketLock) (now : Int) (t1 t2 : Nat),
        lock.grants t1 now = true → lock.grants t2 now = true → t1 = t2) ∧
    (∀ (lock : TicketLock), lock.counter_bound = true →
        ∀ (now now' : Int), now ≤ now' →
        ∀ (t : Nat), lock.grants t now = true →
        ∀ (ops : List LockOp) (t' : Nat), t' ≠ t →
          (applyOps lock ops).grants t' now' = true → t < t') :=
  ⟨fun lock now t1 t2 h1 h2 => lock.grants_unique now t1 t2 h1 h2,
   fun lock hwf now now' hle t h ops t' hne h' =>
     lock.grants_increasing hwf now now' hle t h ops t' hne h'⟩

/-- Witness for C1: on the two-ticket queue, ticket `0` is granted and the
grant is unique; after releasing ticket `0`, the later grant goes to the
strictly larger ticket `1`. -/
theorem ticket_turns_fifo_and_mutually_exclusive_witness :
    ((⟨"c", [⟨0, 100⟩, ⟨1, 100⟩], 2⟩ : TicketLock).grants 0 0 = true ∧ 0 = 0) ∧
    ((⟨"c", [⟨0, 100⟩, ⟨1, 100⟩], 2⟩ : TicketLock).counter_bound = true ∧
     (applyOps ⟨"c", [⟨0, 100⟩, ⟨1, 100⟩], 2⟩ [.removeOp 0]).grants 1 1 = true ∧
     0 < 1) :=
  ⟨⟨by decide,
    ticket_turns_fifo_and_mutually_exclusive.1 ⟨"c", [⟨0, 100⟩, ⟨1, 100⟩], 2⟩ 0 0 0
      (by decide) (by decide)⟩,
   ⟨by decide, by decide,
    ticket_turns_fifo_and_mutually_exclusive.2 ⟨"c", [⟨0, 100⟩, ⟨1, 100⟩], 2⟩
      (by decide) 0 1 (by decide) 0 (by decide) [.removeOp 0] 1 (by decide)
      (by decide)⟩⟩
